import Mathlib

/-!
Shallow embedding of the PDF-to-video script pipeline
(`pdf_extractor.py` and `script_generator.py`).

Strings are modelled at the character-list level (`List Char`), with the
ASCII reading of Python's character classification functions
(`str.isupper`, `str.lower`, `\d`, `\s`, `[A-Z]`).  Every definition below
is translated from the Python source; definitions are structurally
recursive so that concrete inputs evaluate inside the kernel.
-/

set_option maxRecDepth 16384

namespace PdfVideo

/-- A character is cased (has an upper/lower form), ASCII reading. -/
def is_cased (c : Char) : Bool := c.isUpper || c.isLower

/-- Python `str.isupper()`: at least one cased character, and every cased
character is upper-case. -/
def py_isupper (l : List Char) : Bool :=
  l.any is_cased && l.all (fun c => !is_cased c || c.isUpper)

/-- Tests that `needle` is a prefix of `hay` (first argument is the needle). -/
def starts_with : List Char → List Char → Bool
  | [], _ => true
  | _ :: _, [] => false
  | a :: as, b :: bs => a == b && starts_with as bs

/-- Python `needle in hay` substring test (arguments: haystack, needle). -/
def contains_sub (hay needle : List Char) : Bool :=
  starts_with needle hay ||
    match hay with
    | [] => false
    | _ :: rest => contains_sub rest needle

/-- Python `str.strip()`: drop whitespace from both ends. -/
def strip_chars (l : List Char) : List Char :=
  ((l.dropWhile Char.isWhitespace).reverse.dropWhile Char.isWhitespace).reverse

/-- Python `text.split('\n')`: split on newline characters, keeping empty
pieces (so the empty text gives one empty line). -/
def split_lines : List Char → List (List Char)
  | [] => [[]]
  | c :: rest =>
    if c = '\n' then [] :: split_lines rest
    else
      match split_lines rest with
      | [] => [[c]]
      | x :: xs => (c :: x) :: xs

/-- The lowercased character list of a string. -/
def lower_chars (l : List Char) : List Char := l.map Char.toLower

/-- The `\.?` part of the header regex: drop one leading dot if present. -/
def skip_optional_dot (l : List Char) : List Char :=
  match l with
  | '.' :: t => t
  | _ => l

/-- The `\s+[A-Z]` part of the header regex: one or more whitespace
characters followed by an upper-case letter. -/
def upper_after_spaces (l : List Char) : Bool :=
  match l with
  | [] => false
  | d :: r3 =>
    d.isWhitespace &&
      (match r3.dropWhile Char.isWhitespace with
       | [] => false
       | e :: _ => e.isUpper)

/-- Check 2 of `PDFExtractor._is_section_header`: the regex
`^\d+\.?\s+[A-Z]` — one or more digits, an optional dot, one or more
whitespace characters, then an upper-case letter. -/
def num_header_match (l : List Char) : Bool :=
  match l with
  | [] => false
  | c :: rest =>
    c.isDigit && upper_after_spaces (skip_optional_dot (rest.dropWhile Char.isDigit))

/-- The keyword list from `PDFExtractor._is_section_header`. -/
def header_keywords : List String :=
  ["Introduction", "Overview", "Conclusion", "Summary",
   "Properties", "Applications", "Technology", "Performance"]

/-- Tests `keyword.lower() in line.lower()` for some header keyword. -/
def keyword_hit (l : List Char) : Bool :=
  header_keywords.any fun kw => contains_sub (lower_chars l) (lower_chars kw.data)

/-- Model of `PDFExtractor._is_section_header`: all-caps short line, or the numbered
pattern, or a keyword hit on a short line. -/
def is_section_header (line : String) : Bool :=
  if py_isupper line.data && line.length < 100 then true
  else if num_header_match line.data then true
  else if keyword_hit line.data && line.length < 100 then true
  else false

/-- A parsed section: `{"title": ..., "content": ...}`. -/
structure Section where
  title : String
  content : String
  deriving DecidableEq

/-- The loop body of `PDFExtractor.parse_sections`: `cur` is
`current_section`, `acc` is `self.sections`, lines are processed in order;
the last section is appended when non-empty. -/
def parse_loop (cur : Section) (acc : List Section) : List (List Char) → List Section
  | [] => if cur.content = "" then acc else acc ++ [cur]
  | l :: rest =>
    if strip_chars l = [] then parse_loop cur acc rest
    else if is_section_header ⟨strip_chars l⟩ then
      (if cur.content = "" then parse_loop ⟨⟨strip_chars l⟩, ""⟩ acc rest
       else parse_loop ⟨⟨strip_chars l⟩, ""⟩ (acc ++ [cur]) rest)
    else
      parse_loop { cur with content := cur.content ++ ⟨strip_chars l⟩ ++ " " } acc rest

/-- Model of `PDFExtractor.parse_sections` on an instance whose `self.sections`
already holds `secs0`, with extracted text `text`. -/
def parse_sections_on (secs0 : List Section) (text : String) : List Section :=
  parse_loop ⟨"Introduction", ""⟩ secs0 (split_lines text.data)

/-- Model of `PDFExtractor.parse_sections` on a fresh instance. -/
def parse_sections_text (text : String) : List Section :=
  parse_sections_on [] text

/-! ### `script_generator.py` -/

/-- State machine for `re.sub(r'\[\d+\]', '', content)` (leftmost,
non-overlapping).  `pending = some ds` means a `[` was read followed by the
digits `ds`; on failure the pending characters are emitted literally and
scanning resumes at the failing character, exactly as `re.sub` rescans
after a failed match attempt. -/
def sub_brackets_aux (pending : Option (List Char)) (l : List Char) : List Char :=
  match l with
  | [] =>
    (match pending with
     | some ds => '[' :: ds
     | none => [])
  | c :: rest =>
    match pending with
    | none =>
      if c = '[' then sub_brackets_aux (some []) rest
      else c :: sub_brackets_aux none rest
    | some ds =>
      if c.isDigit then sub_brackets_aux (some (ds ++ [c])) rest
      else if c = ']' && ds ≠ [] then sub_brackets_aux none rest
      else
        ('[' :: ds) ++
          (if c = '[' then sub_brackets_aux (some []) rest
           else c :: sub_brackets_aux none rest)

/-- Model of `re.sub(r'\[\d+\]', '', content)`. -/
def sub_brackets (l : List Char) : List Char := sub_brackets_aux none l

/-- Four consecutive digits occur somewhere in the list (`\d{4}`). -/
def has_four_digits : List Char → Bool
  | a :: b :: c :: d :: rest =>
    (a.isDigit && b.isDigit && c.isDigit && d.isDigit) ||
      has_four_digits (b :: c :: d :: rest)
  | _ => false

/-- State machine for `re.sub(r'\([^)]*\d{4}[^)]*\)', '', content)`: a
match is a `(` whose span up to the first `)` contains four consecutive
digits.  `pending = some sp` holds the span read since the last `(`. -/
def sub_year_parens_aux (pending : Option (List Char)) (l : List Char) : List Char :=
  match l with
  | [] =>
    (match pending with
     | some sp => '(' :: sp
     | none => [])
  | c :: rest =>
    match pending with
    | none =>
      if c = '(' then sub_year_parens_aux (some []) rest
      else c :: sub_year_parens_aux none rest
    | some sp =>
      if c = ')' then
        if has_four_digits sp then sub_year_parens_aux none rest
        else ('(' :: sp) ++ (')' :: sub_year_parens_aux none rest)
      else sub_year_parens_aux (some (sp ++ [c])) rest

/-- Model of `re.sub(r'\([^)]*\d{4}[^)]*\)', '', content)`. -/
def sub_year_parens (l : List Char) : List Char := sub_year_parens_aux none l

/-- Model of `re.sub(r'et al\.?', 'and colleagues', content)`: the optional dot is
taken greedily. -/
def sub_et_al : List Char → List Char
  | 'e' :: 't' :: ' ' :: 'a' :: 'l' :: '.' :: rest =>
    "and colleagues".data ++ sub_et_al rest
  | 'e' :: 't' :: ' ' :: 'a' :: 'l' :: rest =>
    "and colleagues".data ++ sub_et_al rest
  | c :: rest => c :: sub_et_al rest
  | [] => []

/-- A sentence-ending character for `re.split(r'[.!?]+', content)`. -/
def is_sentence_end (c : Char) : Bool := c = '.' || c = '!' || c = '?'

/-- Splitter for `re.split(r'[.!?]+', content)`: a maximal run of
sentence-ending characters is one split point; `inSep` records that the
previous character was part of such a run. -/
def split_sent_aux : Bool → List Char → List Char → List (List Char)
  | inSep, cur, [] => if inSep then [[]] else [cur.reverse]
  | inSep, cur, c :: rest =>
    if is_sentence_end c then
      if inSep then split_sent_aux true [] rest
      else cur.reverse :: split_sent_aux true [] rest
    else split_sent_aux false (c :: cur) rest

/-- Model of `re.split(r'[.!?]+', content)`. -/
def split_sentences (l : List Char) : List (List Char) :=
  split_sent_aux false [] l

/-- Worker for Python `str.split()` (split on whitespace runs, no empty
words); `cur` is the current word, reversed. -/
def py_words_aux (cur : List Char) : List Char → List (List Char)
  | [] => if cur = [] then [] else [cur.reverse]
  | c :: rest =>
    if c.isWhitespace then
      if cur = [] then py_words_aux [] rest
      else cur.reverse :: py_words_aux [] rest
    else py_words_aux (c :: cur) rest

/-- Python `str.split()` with no argument. -/
def py_split_ws (l : List Char) : List (List Char) := py_words_aux [] l

/-- The sentence filter of `_summarize_content`: sentences mentioning a
figure, table or equation (case-insensitively) are dropped. -/
def mentions_skip_word (s : List Char) : Bool :=
  contains_sub (lower_chars s) ("figure".data) ||
    contains_sub (lower_chars s) ("table".data) ||
    contains_sub (lower_chars s) ("equation".data)

/-- Model of `ScriptGenerator._summarize_content` at the character level: strip
citations, split into sentences, keep the first five sentences that are
longer than 20 characters and mention no figure/table/equation, join with
`. `, ensure a trailing dot, truncate to 300 characters. -/
def summarize_chars (content : List Char) : List Char :=
  let c1 := sub_brackets content
  let c2 := sub_year_parens c1
  let c3 := sub_et_al c2
  let sentences := split_sentences c3
  let clean := ((sentences.take 5).map strip_chars).filter
    (fun s => decide (20 < s.length) && !mentions_skip_word s)
  let joined := List.intercalate ['.', ' '] clean
  let ended :=
    if joined ≠ [] && !(joined.getLast? == some '.') then joined ++ ['.']
    else joined
  ended.take 300

/-- Model of `ScriptGenerator._summarize_content`. -/
def summarize_content (content : String) : String :=
  ⟨summarize_chars content.data⟩

/-- The anchored regex `^\d+\.?\s*` removal in `_clean_title`. -/
def strip_leading_number (l : List Char) : List Char :=
  match l with
  | c :: _ =>
    if c.isDigit then
      let r := l.dropWhile Char.isDigit
      let r2 := match r with
        | '.' :: t => t
        | _ => r
      r2.dropWhile Char.isWhitespace
    else l
  | [] => []

/-- Python `str.capitalize()`: first character upper-cased, rest
lower-cased (ASCII reading). -/
def capitalize_chars : List Char → List Char
  | [] => []
  | c :: rest => c.toUpper :: rest.map Char.toLower

/-- Model of `ScriptGenerator._clean_title`: strip leading numbering, then
re-case all-upper words longer than 3 characters. -/
def clean_title (title : String) : String :=
  let t := strip_leading_number title.data
  let words := py_split_ws t
  let cleaned := words.map fun w =>
    if py_isupper w && decide (3 < w.length) then capitalize_chars w else w
  ⟨List.intercalate [' '] cleaned⟩

/-- Model of `ScriptGenerator._generate_image_prompt`: ordered keyword match on the
lowercased title and content. -/
def generate_image_prompt (title content : String) : String :=
  let tl := lower_chars title.data
  let cl := lower_chars content.data
  if contains_sub tl ("introduction".data) || contains_sub tl ("overview".data) then
    "Modern semiconductor wafer with GaN crystals, blue and purple color scheme, high-tech laboratory setting"
  else if contains_sub tl ("application".data) then
    "Collage of modern electronics: smartphones, 5G towers, electric vehicles, solar panels, all highlighting GaN components"
  else if contains_sub tl ("structure".data) || contains_sub tl ("architecture".data) then
    "3D visualization of GaN HEMT structure showing layers: substrate, buffer, channel, barrier, with electron flow animation"
  else if contains_sub tl ("performance".data) || contains_sub tl ("efficiency".data) then
    "Performance graphs and charts showing GaN advantages, with glowing efficiency metrics, modern data visualization"
  else if contains_sub tl ("reliability".data) then
    "Robust electronic component undergoing stress tests, showing durability and longevity, industrial testing environment"
  else if contains_sub cl ("biosensor".data) then
    "Medical biosensor device with GaN chip, showing biological molecule detection, clean medical tech aesthetic"
  else if contains_sub cl ("power".data) then
    "High-power electronic systems with GaN components, showing energy flow, industrial power electronics"
  else
    "Advanced GaN semiconductor chip with intricate circuit patterns, blue LED illumination, futuristic technology"

/-- A scene record as built by `ScriptGenerator.generate_script`. -/
structure Scene where
  scene_id : Nat
  title : String
  narration : String
  duration : Nat
  image_prompt : String
  character_action : String
  deriving DecidableEq

/-- The fixed introduction scene (scene_id 1, duration 8). -/
def intro_scene : Scene :=
  { scene_id := 1,
    title := "Introduction to GaN Technology",
    narration := "Welcome to our comprehensive overview of Gallium Nitride, or GaN technology. Today, we\x27ll explore how GaN High Electron Mobility Transistors, or HEMTs, are revolutionizing high-frequency and high-power electronics.",
    duration := 8,
    image_prompt := "A futuristic semiconductor chip with glowing blue circuits, representing GaN technology, modern tech aesthetic",
    character_action := "greeting" }

/-- The fixed conclusion scene, at the next free scene id. -/
def conclusion_scene (sid : Nat) : Scene :=
  { scene_id := sid,
    title := "Conclusion",
    narration := "GaN technology represents a significant advancement in semiconductor technology, enabling faster, more efficient, and more powerful electronic devices. From 5G communications to electric vehicles, GaN HEMTs are shaping the future of electronics.",
    duration := 8,
    image_prompt := "A montage of modern applications: 5G towers, electric vehicles, renewable energy systems, all powered by GaN technology",
    character_action := "concluding" }

/-- One content scene of `generate_script` (duration `max(5, words//20)`). -/
def mk_content_scene (sid : Nat) (s : Section) (summary : String) : Scene :=
  { scene_id := sid,
    title := clean_title s.title,
    narration := summary,
    duration := max 5 ((py_split_ws summary.data).length / 20),
    image_prompt := generate_image_prompt s.title summary,
    character_action := "explaining" }

/-- The content loop of `generate_script`: runs over the (already sliced)
section list with the next scene id, returning the emitted scenes and the
final value of `scene_id`. -/
def content_loop (sid : Nat) : List Section → List Scene × Nat
  | [] => ([], sid)
  | s :: rest =>
    if s.content.length < 100 then content_loop sid rest
    else if summarize_content s.content = "" then content_loop sid rest
    else
      (mk_content_scene sid s (summarize_content s.content) :: (content_loop (sid + 1) rest).1,
       (content_loop (sid + 1) rest).2)

/-- The batch of scenes one `generate_script` call appends: the fixed
introduction, content scenes for `sections[:10]`, the fixed conclusion. -/
def script_batch (sections : List Section) : List Scene :=
  let p := content_loop 2 (sections.take 10)
  intro_scene :: (p.1 ++ [conclusion_scene p.2])

/-- Model of `ScriptGenerator.generate_script` on an instance whose `self.scenes`
already holds `scenes0`: the new batch is appended and the whole list
returned. -/
def generate_script_on (scenes0 : List Scene) (sections : List Section) : List Scene :=
  scenes0 ++ script_batch sections

/-- Model of `ScriptGenerator.generate_script` on a fresh instance, as a function
of the parsed sections. -/
def generate_script (sections : List Section) : List Scene :=
  generate_script_on [] sections

/-- The script record written by `ScriptGenerator.save_script`. -/
structure ScriptData where
  title : String
  total_duration : Nat
  scene_count : Nat
  scenes : List Scene
  deriving DecidableEq

/-- Model of `ScriptGenerator.save_script`: the record built from the instance's
scene list (after the generate-if-empty step). -/
def save_script (scenes : List Scene) : ScriptData :=
  { title := "GaN Technology: A Comprehensive Overview",
    total_duration := (scenes.map Scene.duration).sum,
    scene_count := scenes.length,
    scenes := scenes }

/-- The content scenes of a script: those tagged `explaining`. -/
def content_scenes (scenes : List Scene) : List Scene :=
  scenes.filter fun sc => sc.character_action == "explaining"

/-- A section that survives both filters of the content loop: content of
length at least 100 and a non-empty summary. -/
def good_section (s : Section) : Bool :=
  if s.content.length < 100 then false
  else if summarize_content s.content = "" then false
  else true

/-! ### Helper lemmas -/

/-- String append acts as list append on the underlying characters. -/
theorem string_data_append (a b : String) : (a ++ b).data = a.data ++ b.data := by
  obtain ⟨a⟩ := a
  obtain ⟨b⟩ := b
  rfl

/-- A summary is truncated to at most 300 characters. -/
theorem summarize_chars_length_le (l : List Char) : (summarize_chars l).length ≤ 300 := by
  have h : ∀ m : List Char, (m.take 300).length ≤ 300 := fun m => List.length_take_le 300 m
  exact h _

/-- Every scene emitted by the content loop has duration at least 5 and
narration of at most 300 characters. -/
theorem content_loop_bounds (l : List Section) : ∀ (sid : Nat) (sc : Scene),
    sc ∈ (content_loop sid l).1 → 5 ≤ sc.duration ∧ sc.narration.length ≤ 300 := by
  induction l with
  | nil =>
    intro sid sc h
    simp [content_loop] at h
  | cons s rest ih =>
    intro sid sc h
    rw [content_loop] at h
    by_cases h1 : s.content.length < 100
    · rw [if_pos h1] at h
      exact ih sid sc h
    · rw [if_neg h1] at h
      by_cases h2 : summarize_content s.content = ""
      · rw [if_pos h2] at h
        exact ih sid sc h
      · rw [if_neg h2] at h
        rcases List.mem_cons.mp h with h3 | h3
        · subst h3
          refine ⟨Nat.le_max_left _ _, ?_⟩
          exact summarize_chars_length_le _
        · exact ih (sid + 1) sc h3

/-- Every scene emitted by the content loop carries the `explaining` tag. -/
theorem content_loop_explaining (l : List Section) : ∀ (sid : Nat) (sc : Scene),
    sc ∈ (content_loop sid l).1 → sc.character_action = "explaining" := by
  induction l with
  | nil =>
    intro sid sc h
    simp [content_loop] at h
  | cons s rest ih =>
    intro sid sc h
    rw [content_loop] at h
    by_cases h1 : s.content.length < 100
    · rw [if_pos h1] at h
      exact ih sid sc h
    · rw [if_neg h1] at h
      by_cases h2 : summarize_content s.content = ""
      · rw [if_pos h2] at h
        exact ih sid sc h
      · rw [if_neg h2] at h
        rcases List.mem_cons.mp h with h3 | h3
        · subst h3; rfl
        · exact ih (sid + 1) sc h3

/-- The scene ids emitted by the content loop are consecutive from `sid`,
and the final id is `sid` plus the number of emitted scenes. -/
theorem content_loop_ids (l : List Section) : ∀ sid : Nat,
    (content_loop sid l).1.map Scene.scene_id =
        List.range' sid (content_loop sid l).1.length ∧
      (content_loop sid l).2 = sid + (content_loop sid l).1.length := by
  induction l with
  | nil =>
    intro sid
    simp [content_loop]
  | cons s rest ih =>
    intro sid
    rw [content_loop]
    by_cases h1 : s.content.length < 100
    · rw [if_pos h1]
      exact ih sid
    · rw [if_neg h1]
      by_cases h2 : summarize_content s.content = ""
      · rw [if_pos h2]
        exact ih sid
      · rw [if_neg h2]
        obtain ⟨ha, hb⟩ := ih (sid + 1)
        constructor
        · simp only [List.map_cons, List.length_cons, ha, mk_content_scene,
            List.range'_succ]
        · simp only [List.length_cons, hb]
          omega

/-- The content loop emits one scene per section passing both filters. -/
theorem content_loop_length (l : List Section) : ∀ sid : Nat,
    (content_loop sid l).1.length = (l.filter good_section).length := by
  induction l with
  | nil =>
    intro sid
    simp [content_loop]
  | cons s rest ih =>
    intro sid
    rw [content_loop, List.filter_cons]
    by_cases h1 : s.content.length < 100
    · rw [if_pos h1]
      have : good_section s = false := by rw [good_section, if_pos h1]
      rw [this]
      simpa using ih sid
    · rw [if_neg h1]
      by_cases h2 : summarize_content s.content = ""
      · rw [if_pos h2]
        have : good_section s = false := by
          rw [good_section, if_neg h1, if_pos h2]
        rw [this]
        simpa using ih sid
      · rw [if_neg h2]
        have : good_section s = true := by
          rw [good_section, if_neg h1, if_neg h2]
        rw [this]
        simpa using ih (sid + 1)

/-- The parse loop only appends to its accumulator: running it with
accumulated sections `acc` equals `acc` followed by a fresh run. -/
theorem parse_loop_acc (lines : List (List Char)) : ∀ (cur : Section) (acc : List Section),
    parse_loop cur acc lines = acc ++ parse_loop cur [] lines := by
  induction lines with
  | nil =>
    intro cur acc
    rw [parse_loop, parse_loop]
    by_cases h : cur.content = ""
    · simp [h]
    · simp [h]
  | cons l rest ih =>
    intro cur acc
    rw [parse_loop, parse_loop]
    by_cases h1 : strip_chars l = []
    · rw [if_pos h1, if_pos h1]
      exact ih cur acc
    · rw [if_neg h1, if_neg h1]
      by_cases h2 : is_section_header ⟨strip_chars l⟩
      · rw [if_pos h2, if_pos h2]
        by_cases h3 : cur.content = ""
        · rw [if_pos h3, if_pos h3]
          exact ih _ acc
        · rw [if_neg h3, if_neg h3, List.nil_append, ih _ (acc ++ [cur]), ih _ [cur],
            List.append_assoc]
      · rw [if_neg h2, if_neg h2]
        exact ih _ acc

/-- The characters of the sections' contents, concatenated in order. -/
def sections_content (secs : List Section) : List Char :=
  secs.foldr (fun s r => s.content.data ++ r) []

/-- The statement side of the splitter claim: the non-blank, non-header
lines of the input, each stripped and followed by a single space,
concatenated in order. -/
def spec_content : List (List Char) → List Char
  | [] => []
  | l :: rest =>
    if strip_chars l = [] then spec_content rest
    else if is_section_header ⟨strip_chars l⟩ then spec_content rest
    else strip_chars l ++ ' ' :: spec_content rest

/-- Content concatenation distributes over list append. -/
theorem sections_content_append (xs ys : List Section) :
    sections_content (xs ++ ys) = sections_content xs ++ sections_content ys := by
  induction xs with
  | nil => rfl
  | cons x xs ih =>
    simp only [List.cons_append, sections_content, List.foldr_cons] at *
    rw [ih, List.append_assoc]

/-- Invariant of the parse loop: the content of its result is the content
of the accumulator, then the pending section's content, then the stripped
non-blank non-header lines still to come. -/
theorem parse_loop_content (lines : List (List Char)) :
    ∀ (cur : Section) (acc : List Section),
    sections_content (parse_loop cur acc lines) =
      sections_content acc ++ cur.content.data ++ spec_content lines := by
  induction lines with
  | nil =>
    intro cur acc
    rw [parse_loop, spec_content]
    by_cases h : cur.content = ""
    · rw [if_pos h, h]
      simp
    · rw [if_neg h, sections_content_append]
      simp [sections_content]
  | cons l rest ih =>
    intro cur acc
    rw [parse_loop, spec_content]
    by_cases h1 : strip_chars l = []
    · rw [if_pos h1, if_pos h1]
      exact ih cur acc
    · rw [if_neg h1, if_neg h1]
      by_cases h2 : is_section_header ⟨strip_chars l⟩
      · rw [if_pos h2, if_pos h2]
        by_cases h3 : cur.content = ""
        · rw [if_pos h3, ih _ acc, h3]
          try simp
        · rw [if_neg h3, ih _ (acc ++ [cur]), sections_content_append]
          simp [sections_content]
      · rw [if_neg h2, if_neg h2, ih _ acc]
        show sections_content acc ++ (cur.content ++ ⟨strip_chars l⟩ ++ " ").data ++
            spec_content rest =
          sections_content acc ++ cur.content.data ++
            (strip_chars l ++ ' ' :: spec_content rest)
        rw [string_data_append, string_data_append]
        show sections_content acc ++ (cur.content.data ++ strip_chars l ++ [' ']) ++
            spec_content rest =
          sections_content acc ++ cur.content.data ++
            (strip_chars l ++ ' ' :: spec_content rest)
        simp [List.append_assoc]

/-- Characters examined after dropping a leading dot come from the
original list. -/
theorem mem_of_skip_optional_dot {x : Char} {l : List Char}
    (h : x ∈ skip_optional_dot l) : x ∈ l := by
  unfold skip_optional_dot at h
  split at h
  · exact List.mem_cons_of_mem _ h
  · exact h

/-- Characters surviving a `dropWhile` come from the original list. -/
theorem mem_of_mem_dropWhile {p : Char → Bool} {c : Char} {l : List Char}
    (h : c ∈ l.dropWhile p) : c ∈ l :=
  (List.dropWhile_sublist p).mem h

/-- Without an upper-case character, the `\s+[A-Z]` tail cannot match. -/
theorem upper_after_spaces_false {l : List Char}
    (h : ∀ c ∈ l, ¬ c.isUpper = true) :
    upper_after_spaces l = false := by
  cases l with
  | nil => rfl
  | cons d r3 =>
    rw [upper_after_spaces]
    cases hdrop : r3.dropWhile Char.isWhitespace with
    | nil => simp [hdrop]
    | cons e tail =>
      have he : e ∈ r3 :=
        mem_of_mem_dropWhile (p := Char.isWhitespace)
          (by rw [hdrop]; exact List.mem_cons_self e tail)
      have hu := h e (List.mem_cons_of_mem d he)
      simp [hdrop, hu]

/-- Without an upper-case character, the numbered-header regex cannot
match. -/
theorem num_header_match_no_upper {l : List Char}
    (h : ∀ c ∈ l, ¬ c.isUpper = true) :
    num_header_match l = false := by
  cases l with
  | nil => rfl
  | cons c rest =>
    rw [num_header_match]
    have hsub : ∀ x ∈ skip_optional_dot (rest.dropWhile Char.isDigit),
        ¬ x.isUpper = true := by
      intro x hx
      exact h x (List.mem_cons_of_mem c
        (mem_of_mem_dropWhile (mem_of_skip_optional_dot hx)))
    rw [upper_after_spaces_false hsub]
    simp

/-- Without an upper-case character, `str.isupper()` is false. -/
theorem py_isupper_no_upper {l : List Char}
    (h : ∀ c ∈ l, ¬ c.isUpper = true) :
    py_isupper l = false := by
  rw [py_isupper]
  cases hany : l.any is_cased with
  | false => rfl
  | true =>
    obtain ⟨c, hc, hcased⟩ := List.any_eq_true.mp hany
    have hlow : c.isLower = true := by
      rcases Bool.or_eq_true_iff.mp hcased with h1 | h1
      · exact absurd h1 (h c hc)
      · exact h1
    have hall : l.all (fun c => !is_cased c || c.isUpper) = false := by
      rw [Bool.eq_false_iff]
      intro hall
      have := List.all_eq_true.mp hall c hc
      rcases Bool.or_eq_true_iff.mp this with h1 | h1
      · rw [hcased] at h1
        simp at h1
      · exact h c hc h1
    rw [hall]
    simp

/-- Arithmetic helper: prepending 1 to the consecutive range starting at 2
gives the consecutive range starting at 1. -/
theorem range'_cons_one (k : Nat) :
    1 :: List.range' 2 (k + 1) = List.range' 1 (k + 1 + 1) := by
  conv_rhs => rw [List.range'_succ]

/-! ### Claims -/

/-- C5: for every scene sequence, the record written by `save_script` has
`total_duration` equal to the sum of its scenes' durations and
`scene_count` equal to the number of its scenes. -/
theorem save_script_consistent (scenes : List Scene) :
    (save_script scenes).total_duration =
        ((save_script scenes).scenes.map Scene.duration).sum ∧
      (save_script scenes).scene_count = (save_script scenes).scenes.length ∧
      (save_script scenes).scenes = scenes :=
  ⟨rfl, rfl, rfl⟩

/-- C4: if the extracted text is empty, the generated script is exactly
the fixed introduction followed by the fixed conclusion (2 scenes), with
total duration 16 = 8 + 8. -/
theorem empty_text_two_scenes :
    generate_script (parse_sections_text "") = [intro_scene, conclusion_scene 2] ∧
      (generate_script (parse_sections_text "")).length = 2 ∧
      ((generate_script (parse_sections_text "")).map Scene.duration).sum = 16 :=
  ⟨rfl, rfl, rfl⟩

/-- C9: the script builder is deterministic — two `generate_script` runs
from identical initial scene lists on identical section input produce
scene sequences with identical ids, titles, narrations, durations, image
prompts and action tags. -/
theorem generate_script_deterministic (sections : List Section)
    (st1 st2 : List Scene) (h : st1 = st2) :
    (generate_script_on st1 sections).map
        (fun sc => (sc.scene_id, sc.title, sc.narration, sc.duration,
          sc.image_prompt, sc.character_action)) =
      (generate_script_on st2 sections).map
        (fun sc => (sc.scene_id, sc.title, sc.narration, sc.duration,
          sc.image_prompt, sc.character_action)) := by
  subst h
  rfl

/-- Witness for C9 at the empty initial state and empty section input. -/
theorem generate_script_deterministic_witness :
    (generate_script_on [] []).map
        (fun sc => (sc.scene_id, sc.title, sc.narration, sc.duration,
          sc.image_prompt, sc.character_action)) =
      (generate_script_on [] []).map
        (fun sc => (sc.scene_id, sc.title, sc.narration, sc.duration,
          sc.image_prompt, sc.character_action)) :=
  generate_script_deterministic [] [] [] rfl

/-- C7: every line matching the leading-number-then-capital regex is
classified as a section header. -/
theorem num_pattern_is_header (line : String)
    (h : num_header_match line.data = true) :
    is_section_header line = true := by
  rw [is_section_header]
  by_cases h1 : py_isupper line.data && line.length < 100
  · rw [if_pos h1]
  · rw [if_neg h1, if_pos h]

/-- Witness for C7 at the exact line from the spec, `3. Overview`. -/
theorem num_pattern_is_header_witness :
    num_header_match ("3. Overview".data) = true ∧
      is_section_header "3. Overview" = true :=
  ⟨by decide, num_pattern_is_header "3. Overview" (by decide)⟩

/-- The fixed conclusion narration is within the 300-character limit,
whatever its scene id. -/
theorem conclusion_scene_narration_le (sid : Nat) :
    (conclusion_scene sid).narration.length ≤ 300 := by
  have h : ("GaN technology represents a significant advancement in semiconductor technology, enabling faster, more efficient, and more powerful electronic devices. From 5G communications to electric vehicles, GaN HEMTs are shaping the future of electronics." : String).length ≤ 300 := by
    decide
  exact h

/-- C3: every scene of a generated script — introduction, content scenes
and conclusion alike — has duration at least 5 seconds and narration of at
most 300 characters. -/
theorem scene_duration_narration_bounds (sections : List Section) (sc : Scene)
    (h : sc ∈ generate_script sections) :
    5 ≤ sc.duration ∧ sc.narration.length ≤ 300 := by
  rw [generate_script, generate_script_on, List.nil_append, script_batch] at h
  rcases List.mem_cons.mp h with h1 | h1
  · subst h1
    exact ⟨by decide, by decide⟩
  · rcases List.mem_append.mp h1 with h2 | h2
    · exact content_loop_bounds _ _ _ h2
    · rcases List.mem_singleton.mp h2 with h3
      subst h3
      exact ⟨(by decide : (5 : Nat) ≤ 8), conclusion_scene_narration_le _⟩

/-- Witness for C3 at the empty section input and the introduction scene. -/
theorem scene_duration_narration_bounds_witness :
    5 ≤ intro_scene.duration ∧ intro_scene.narration.length ≤ 300 :=
  scene_duration_narration_bounds [] intro_scene (by decide)

/-- C6: in every generated script the scene ids are exactly the
consecutive integers 1, 2, ..., n (hence unique and strictly ascending),
and every duration is positive. -/
theorem scene_ids_consecutive (sections : List Section) :
    (generate_script sections).map Scene.scene_id =
        List.range' 1 (generate_script sections).length ∧
      ∀ sc ∈ generate_script sections, 0 < sc.duration := by
  constructor
  · rw [generate_script, generate_script_on, List.nil_append, script_batch]
    obtain ⟨ha, hb⟩ := content_loop_ids (sections.take 10) 2
    simp only [List.map_cons, List.map_append, List.map_singleton, ha, hb,
      List.length_cons, List.length_append, List.length_singleton]
    show 1 :: (List.range' 2 _ ++ [2 + _]) =
      List.range' 1 ((content_loop 2 (sections.take 10)).1.length + 1 + 1)
    rw [← List.range'_1_concat]
    exact range'_cons_one _
  · intro sc h
    rw [generate_script, generate_script_on, List.nil_append, script_batch] at h
    rcases List.mem_cons.mp h with h1 | h1
    · subst h1; decide
    · rcases List.mem_append.mp h1 with h2 | h2
      · have := (content_loop_bounds _ _ _ h2).1
        omega
      · rcases List.mem_singleton.mp h2 with h3
        subst h3
        exact (by decide : (0 : Nat) < 8)

/-- Witness for C6 at the empty section input: the ids are `[1, 2]` and
the introduction scene has positive duration. -/
theorem scene_ids_consecutive_witness :
    (generate_script []).map Scene.scene_id = List.range' 1 2 ∧
      0 < intro_scene.duration :=
  ⟨(scene_ids_consecutive []).1, (scene_ids_consecutive []).2 intro_scene (by decide)⟩

/-- C1 (amended): the number of content scenes equals the number of
sections among the first 10 (the `sections[:10]` slice) whose content
length is at least 100 and whose summary is non-empty. -/
theorem content_scene_count_eq_first10 (sections : List Section) :
    (content_scenes (generate_script sections)).length =
      ((sections.take 10).filter good_section).length := by
  rw [generate_script, generate_script_on, List.nil_append, script_batch,
    content_scenes, List.filter_cons, List.filter_append, List.filter_cons]
  have h1 : (intro_scene.character_action == "explaining") = false := by decide
  have h2 : ∀ sid : Nat,
      ((conclusion_scene sid).character_action == "explaining") = false := by
    intro sid
    exact (by decide : (("concluding" : String) == "explaining") = false)
  have h3 : (content_loop 2 (sections.take 10)).1.filter
      (fun sc => sc.character_action == "explaining") =
      (content_loop 2 (sections.take 10)).1 := by
    rw [List.filter_eq_self]
    intro sc hsc
    rw [content_loop_explaining _ _ _ hsc]
    rfl
  simp only [h1, h2, Bool.false_eq_true, if_false, List.filter_nil,
    List.append_nil, h3]
  exact content_loop_length _ _

/-- A section too short to pass the 100-character filter. -/
def c1_short_section : Section := ⟨"Background", "Too short."⟩

/-- Content long enough to pass the filter and yield a non-empty summary. -/
def c1_rich_content : String := "Gallium nitride transistors deliver very high switching speed and excellent efficiency in modern power conversion systems. They support dense communication hardware."

/-- A section passing both filters of the content loop. -/
def c1_rich_section : Section := ⟨"Details", c1_rich_content⟩

/-- Eleven sections: a short one followed by ten rich ones.  Only nine of
the rich ones fall inside the `sections[:10]` slice. -/
def c1_input : List Section := c1_short_section :: List.replicate 10 c1_rich_section

/-- Counterexample to C1 as stated: on `c1_input` the code emits 9 content
scenes (the short first section consumes one of the 10 slots), while the
claimed formula `min(10, number of qualifying sections)` gives 10. -/
theorem content_scene_count_claim_false :
    ¬ ((content_scenes (generate_script c1_input)).length =
        min 10 ((c1_input.filter good_section).length)) := by
  decide

/-- C10: `generate_script` accumulates on the instance — a second call
returns the first call's scenes followed by a fresh batch, so scene id 1
occurs twice and the ids are no longer unique; `parse_sections` likewise
appends to the sections already stored on the instance. -/
theorem generate_script_accumulates (sections1 sections2 : List Section)
    (old : List Section) (t : String) :
    generate_script_on (generate_script sections1) sections2 =
        generate_script sections1 ++ generate_script sections2 ∧
      ¬ ((generate_script_on (generate_script sections1) sections2).map
          Scene.scene_id).Nodup ∧
      parse_sections_on old t = old ++ parse_sections_text t := by
  refine ⟨?_, ?_, ?_⟩
  · simp only [generate_script, generate_script_on, List.nil_append]
  · intro hnd
    simp only [generate_script, generate_script_on, List.nil_append,
      List.map_append] at hnd
    obtain ⟨-, -, hdisj⟩ := List.nodup_append.mp hnd
    have hmem : ∀ s : List Section, (1 : Nat) ∈ (script_batch s).map Scene.scene_id := by
      intro s
      rw [script_batch, List.map_cons]
      exact List.mem_cons_self _ _
    exact hdisj (hmem sections1) (hmem sections2)
  · simp only [parse_sections_text, parse_sections_on]
    exact parse_loop_acc _ _ _

/-- C2: for every input text, concatenating the contents of the parsed
sections in order recovers exactly the non-header, non-blank lines of the
input, each stripped and followed by a single trailing space, in their
original order. -/
theorem splitter_content_exact (t : String) :
    sections_content (parse_sections_text t) = spec_content (split_lines t.data) := by
  have h := parse_loop_content (split_lines t.data) ⟨"Introduction", ""⟩ []
  rw [parse_sections_text, parse_sections_on]
  rw [h]
  rfl

/-- C8: a line shorter than 100 characters with no upper-case character
and no header keyword (case-insensitively) is never classified as a
section header. -/
theorem lower_line_not_header (line : String)
    (_hlen : line.length < 100)
    (hlow : ∀ c ∈ line.data, ¬ c.isUpper = true)
    (hkw : keyword_hit line.data = false) :
    is_section_header line = false := by
  rw [is_section_header, py_isupper_no_upper hlow, num_header_match_no_upper hlow,
    hkw]
  simp

/-- Witness for C8 at the concrete line `this is ordinary body text`. -/
theorem lower_line_not_header_witness :
    ("this is ordinary body text".length < 100 ∧
        keyword_hit ("this is ordinary body text".data) = false) ∧
      is_section_header "this is ordinary body text" = false :=
  ⟨⟨by decide, by decide⟩,
    lower_line_not_header "this is ordinary body text" (by decide) (by decide)
      (by decide)⟩

end PdfVideo
